import Mathlib

/-!
Verification of the AI Travel Booking Concierge Agent core.

The Python source is shallowly embedded: each tool adapter body becomes a
total Lean function over a `Json` value model; behavior of external
collaborators (environment variables, HTTP providers, the filesystem, the
reasoning model) is passed in as explicit environment records, so the
embedded function covers every run-time outcome of the original code.
`json.dumps` serialization is modelled by returning the `Json` value itself
(serialization of a well-formed value never fails and is injective).
-/

/-- JSON values, the data model shared by every tool result. An object keeps
its fields in insertion order, as Python dicts do. -/
inductive Json where
  | null : Json
  | bool : Bool → Json
  | num : Int → Json
  | str : String → Json
  | arr : List Json → Json
  | obj : List (String × Json) → Json
deriving Repr

/-- Field lookup in a JSON object (Python `dict[key]` / `dict.get(key)`);
`none` on a missing key or a non-object. -/
def Json.getField : Json → String → Option Json
  | Json.obj fields, key => (fields.find? (fun p => p.1 == key)).map (·.2)
  | _, _ => none

/-- The ordered list of field names of a JSON object (empty for non-objects). -/
def Json.fieldNames : Json → List String
  | Json.obj fields => fields.map (·.1)
  | _ => []

/-- The ASCII case pairs (lowercase, uppercase), the alphabet exercised by
the case conversions in the code. -/
def asciiCaseTable : List (Char × Char) :=
  [('a', 'A'), ('b', 'B'), ('c', 'C'), ('d', 'D'), ('e', 'E'), ('f', 'F'),
   ('g', 'G'), ('h', 'H'), ('i', 'I'), ('j', 'J'), ('k', 'K'), ('l', 'L'),
   ('m', 'M'), ('n', 'N'), ('o', 'O'), ('p', 'P'), ('q', 'Q'), ('r', 'R'),
   ('s', 'S'), ('t', 'T'), ('u', 'U'), ('v', 'V'), ('w', 'W'), ('x', 'X'),
   ('y', 'Y'), ('z', 'Z')]

/-- Python `str.lower` on one character, restricted to ASCII. -/
def charLow (c : Char) : Char :=
  match asciiCaseTable.find? (fun p => p.2 == c) with
  | some p => p.1
  | none => c

/-- Python `str.upper` on one character, restricted to ASCII. -/
def charUp (c : Char) : Char :=
  match asciiCaseTable.find? (fun p => p.1 == c) with
  | some p => p.2
  | none => c

def pyLower (s : String) : String := ⟨s.data.map charLow⟩

def pyUpper (s : String) : String := ⟨s.data.map charUp⟩

/-- Python string slicing `s[:k]` for a nonnegative literal bound. -/
def pyStrSlice (k : Nat) (s : String) : String := ⟨s.data.take k⟩

/-- Python list/str slicing `x[:k]` for an `int` bound `k` (negative bounds
count from the end, clamped at zero). -/
def pySlice (k : Int) (l : List α) : List α :=
  if k ≥ 0 then l.take k.toNat else l.take (l.length - (-k).toNat)

/-- Decimal digit character for `n % 10`. -/
def digitChar10 (n : Nat) : Char :=
  match n % 10 with
  | 0 => '0' | 1 => '1' | 2 => '2' | 3 => '3' | 4 => '4'
  | 5 => '5' | 6 => '6' | 7 => '7' | 8 => '8' | _ => '9'

/-- The low `w` decimal digits of `n`, zero padded to exactly width `w`
(strftime `%0wd`; faithful whenever `n < 10 ^ w`, which holds for every
field of a `datetime.now()` value with a four-digit year). -/
def padNumAux : Nat → Nat → List Char
  | 0, _ => []
  | w + 1, n => padNumAux w (n / 10) ++ [digitChar10 n]

def padNum (w n : Nat) : String := ⟨padNumAux w n⟩

/-- A `datetime.now()` value, to second resolution. -/
structure DateTime where
  year : Nat
  month : Nat
  day : Nat
  hour : Nat
  minute : Nat
  second : Nat

/-- Embeds `datetime.strftime(now, "%Y%m%d%H%M%S")` for dates with four-digit years. -/
def fmtTimestamp (d : DateTime) : String :=
  ⟨padNumAux 4 d.year ++ padNumAux 2 d.month ++ padNumAux 2 d.day ++
    padNumAux 2 d.hour ++ padNumAux 2 d.minute ++ padNumAux 2 d.second⟩

/-- The regular expression `HOT-\d\x7b14\x7d` from spec section 8, as a
decidable check on the booking reference. -/
def matchesHotPattern (s : String) : Bool :=
  match s.data with
  | 'H' :: 'O' :: 'T' :: '-' :: rest => rest.length == 14 && rest.all Char.isDigit
  | _ => false

/-- Embeds `datetime.isoformat()`, used only for the informational created_at field. -/
def isoFormat (d : DateTime) : String :=
  padNum 4 d.year ++ "-" ++ padNum 2 d.month ++ "-" ++ padNum 2 d.day ++ "T" ++
    padNum 2 d.hour ++ ":" ++ padNum 2 d.minute ++ ":" ++ padNum 2 d.second

section BookingTool

/-- Arguments of `create_booking` (src/app/Tools/booking_tool.py). -/
structure BookingArgs where
  booking_type : String
  booking_details : String
  customer_name : String
  customer_email : String

/-- External collaborators of `create_booking`: the JSON parser outcome for
`json.loads` (total, `none` when the text is not parseable as JSON), the
wall clock, and whether the booking-file write raises (the only statement in
the `try` block that can raise at run time, an `OSError` carrying a message). -/
structure BookingEnv where
  loads : String → Option Json
  now : DateTime
  writeError : Option String

/-- The persisted booking store: `data/bookings/<ref>.json` file name paired
with the record written there. -/
abbrev BookingStore := List (String × Json)

/-- The successful booking record built at src/app/Tools/booking_tool.py lines 52-64. -/
def bookingRecord (env : BookingEnv) (a : BookingArgs) (details : Json) (ref : String) : Json :=
  Json.obj [
    ("success", Json.bool true),
    ("booking_reference", Json.str ref),
    ("booking_type", Json.str (pyLower a.booking_type)),
    ("status", Json.str "CONFIRMED"),
    ("booking_details", details),
    ("customer_info", Json.obj [
      ("name", Json.str a.customer_name),
      ("email", Json.str a.customer_email)]),
    ("created_at", Json.str (isoFormat env.now)),
    ("confirmation_message", Json.str ("Your " ++ a.booking_type ++ " booking has been confirmed!"))]

/-- Embeds `create_booking` (src/app/Tools/booking_tool.py lines 31-80): returns the
serialized result together with the booking store after the call. The
body runs inside `try`; the `except` branch turns any raised error into a
success:false result. -/
def create_booking (env : BookingEnv) (store : BookingStore) (a : BookingArgs) :
    Json × BookingStore :=
  if pyLower a.booking_type ∉ ["flight", "hotel"] then
    (Json.obj [
      ("success", Json.bool false),
      ("error", Json.str "Invalid booking type. Must be flight or hotel.")], store)
  else
    let details := match env.loads a.booking_details with
      | some j => j
      | none => Json.obj [("description", Json.str a.booking_details)]
    let tstamp := fmtTimestamp env.now
    let ref := pyStrSlice 3 (pyUpper a.booking_type) ++ "-" ++ tstamp
    let booking := bookingRecord env a details ref
    match env.writeError with
    | some msg =>
      (Json.obj [
        ("success", Json.bool false),
        ("error", Json.str ("Booking creation failed: " ++ msg))], store)
    | none => (booking, store ++ [(ref ++ ".json", booking)])

end BookingTool

section SearchTools

/-- Outcome of an HTTP call made with `requests`: a response with its status
code and decoded JSON body, or a raised exception carrying its message
(network failure, timeout, body-decode failure). -/
inductive ProviderOutcome where
  | resp (status : Nat) (body : Json)
  | exn (msg : String)

/-- Python dict `.get(key, default)`; raises AttributeError on a non-dict. -/
def pyDictGet (j : Json) (key : String) (dflt : Json) : Except String Json :=
  match j with
  | Json.obj _ => Except.ok ((j.getField key).getD dflt)
  | _ => Except.error "AttributeError"

/-- Python dict `[key]` indexing; raises KeyError or TypeError. -/
def pyDictIndex (j : Json) (key : String) : Except String Json :=
  match j with
  | Json.obj _ =>
    match j.getField key with
    | some v => Except.ok v
    | none => Except.error "KeyError"
  | _ => Except.error "TypeError"

/-- Python list `[0]` indexing; raises IndexError or TypeError. -/
def pyIndex0 (j : Json) : Except String Json :=
  match j with
  | Json.arr (x :: _) => Except.ok x
  | Json.arr [] => Except.error "IndexError"
  | _ => Except.error "TypeError"

/-- External collaborators of `search_flights`: the SERPAPI_KEY environment
variable and the outcome of the SerpAPI request. -/
structure FlightEnv where
  serpapiKey : Option String
  response : ProviderOutcome

/-- One extracted flight entry (src/app/Tools/flight_search.py lines 70-77);
any raise while reading malformed provider data propagates to `except`. -/
def extractFlight (flight : Json) : Except String Json := do
  let price ← pyDictGet flight "price" (Json.str "N/A")
  let inner ← pyDictIndex flight "flights"
  let f0 ← pyIndex0 inner
  let airline ← pyDictGet f0 "airline" (Json.str "Unknown")
  let depA ← pyDictGet f0 "departure_airport" (Json.obj [])
  let depTime ← pyDictGet depA "time" (Json.str "N/A")
  let arrA ← pyDictGet f0 "arrival_airport" (Json.obj [])
  let arrTime ← pyDictGet arrA "time" (Json.str "N/A")
  let duration ← pyDictGet flight "total_duration" (Json.str "N/A")
  let legs ← pyDictGet flight "flights" (Json.arr [])
  let nLegs ← match legs with
    | Json.arr l => Except.ok (l.length : Int)
    | _ => Except.error "TypeError"
  Except.ok (Json.obj [
    ("price", price),
    ("airline", airline),
    ("departure_time", depTime),
    ("arrival_time", arrTime),
    ("duration", duration),
    ("layovers", Json.num (nLegs - 1))])

/-- Lines 67-77: top-5 extraction loop over `data["best_flights"]`. A JSON
body that is not an object makes the membership test false (the TypeError
edge for numeric bodies is folded into the empty branch; every claim below
holds on either reading of that edge). -/
def extractFlights (data : Json) : Except String (List Json) :=
  match data with
  | Json.obj _ =>
    match data.getField "best_flights" with
    | none => Except.ok []
    | some (Json.arr l) => (l.take 5).mapM extractFlight
    | some _ => Except.error "TypeError"
  | _ => Except.ok []

def optStr : Option String → Json
  | none => Json.null
  | some s => Json.str s

/-- The live success payload (lines 79-87). -/
def liveFlightResult (origin destination departure_date : String)
    (return_date : Option String) (flights : List Json) : Json :=
  Json.obj [
    ("success", Json.bool true),
    ("origin", Json.str origin),
    ("destination", Json.str destination),
    ("departure_date", Json.str departure_date),
    ("return_date", optStr return_date),
    ("flights", Json.arr flights),
    ("count", Json.num flights.length)]

/-- The four fixed mock flight entries (lines 105-138). -/
def mockFlights : List Json :=
  [Json.obj [
    ("price", Json.str "$450"), ("airline", Json.str "Air India"),
    ("departure_time", Json.str "10:30 AM"), ("arrival_time", Json.str "02:45 PM"),
    ("duration", Json.str "2h 15m"), ("layovers", Json.num 0)],
   Json.obj [
    ("price", Json.str "$380"), ("airline", Json.str "IndiGo"),
    ("departure_time", Json.str "06:15 AM"), ("arrival_time", Json.str "10:30 AM"),
    ("duration", Json.str "2h 15m"), ("layovers", Json.num 0)],
   Json.obj [
    ("price", Json.str "$520"), ("airline", Json.str "Vistara"),
    ("departure_time", Json.str "03:00 PM"), ("arrival_time", Json.str "07:20 PM"),
    ("duration", Json.str "2h 20m"), ("layovers", Json.num 0)],
   Json.obj [
    ("price", Json.str "$340"), ("airline", Json.str "SpiceJet"),
    ("departure_time", Json.str "11:45 PM"), ("arrival_time", Json.str "04:00 AM (+1)"),
    ("duration", Json.str "2h 15m"), ("layovers", Json.num 0)]]

/-- Embeds `_get_mock_flight_data` (lines 101-151). -/
def get_mock_flight_data (origin destination departure_date : String)
    (return_date : Option String) : Json :=
  Json.obj [
    ("success", Json.bool true),
    ("origin", Json.str origin),
    ("destination", Json.str destination),
    ("departure_date", Json.str departure_date),
    ("return_date", optStr return_date),
    ("flights", Json.arr mockFlights),
    ("count", Json.num mockFlights.length),
    ("note", Json.str "Sample data shown. Configure SERPAPI_KEY for live data.")]

/-- Embeds `search_flights` (src/app/Tools/flight_search.py lines 32-98). Python
`if not api_key` is true for both an unset and an empty variable. -/
def search_flights (env : FlightEnv) (origin destination departure_date : String)
    (return_date : Option String) : Json :=
  match env.serpapiKey with
  | none => get_mock_flight_data origin destination departure_date return_date
  | some k =>
    if k = "" then get_mock_flight_data origin destination departure_date return_date
    else
      match env.response with
      | ProviderOutcome.exn msg =>
        Json.obj [
          ("success", Json.bool false),
          ("error", Json.str ("Flight search failed: " ++ msg)),
          ("message", Json.str "Using sample data instead")]
      | ProviderOutcome.resp status body =>
        if status = 200 then
          match extractFlights body with
          | Except.ok flights =>
            liveFlightResult origin destination departure_date return_date flights
          | Except.error msg =>
            Json.obj [
              ("success", Json.bool false),
              ("error", Json.str ("Flight search failed: " ++ msg)),
              ("message", Json.str "Using sample data instead")]
        else get_mock_flight_data origin destination departure_date return_date

section HotelTool

/-- External collaborators of `search_hotels`: the two Amadeus credentials
and the outcomes of the token request and the hotel-list request. -/
structure HotelEnv where
  amadeusKey : Option String
  amadeusSecret : Option String
  tokenResponse : ProviderOutcome
  searchResponse : ProviderOutcome

/-- One extracted hotel entry (src/app/Tools/hotel_search.py lines 73-80);
`i` is the number of hotels already accumulated, which sets the synthetic
price `$100 + 25 * i`. -/
def extractHotel (city : String) (i : Nat) (hotel : Json) : Except String Json := do
  let name ← pyDictGet hotel "name" (Json.str "Unknown Hotel")
  let hid ← pyDictGet hotel "hotelId" (Json.str "N/A")
  let addrObj ← pyDictGet hotel "address" (Json.obj [])
  let addr ← pyDictGet addrObj "cityName" (Json.str city)
  Except.ok (Json.obj [
    ("name", name),
    ("hotel_id", hid),
    ("address", addr),
    ("rating", Json.str "4.5"),
    ("price_per_night", Json.str ("$" ++ toString (100 + i * 25))),
    ("amenities", Json.arr (["WiFi", "Pool", "Gym", "Restaurant"].map Json.str))])

/-- Lines 70-80: `data.get("data", [])[:max_results]` then the accumulation
loop. Slicing a non-list provider payload raises TypeError into `except`. -/
def extractHotels (city : String) (max_results : Int) (data : Json) :
    Except String (List Json) := do
  let raw ← pyDictGet data "data" (Json.arr [])
  match raw with
  | Json.arr l => (pySlice max_results l).enum.mapM (fun p => extractHotel city p.1 p.2)
  | _ => Except.error "TypeError"

/-- The live success payload (lines 82-90). -/
def liveHotelResult (city check_in check_out : String) (guests : Int)
    (hotels : List Json) : Json :=
  Json.obj [
    ("success", Json.bool true),
    ("city", Json.str city),
    ("check_in", Json.str check_in),
    ("check_out", Json.str check_out),
    ("guests", Json.num guests),
    ("hotels", Json.arr hotels),
    ("count", Json.num hotels.length)]

/-- The five fixed mock hotel entries (lines 108-149); the address field
interpolates the city argument. -/
def mockHotels (city : String) : List Json :=
  [Json.obj [
    ("name", Json.str "Grand Plaza Hotel"), ("hotel_id", Json.str "H001"),
    ("address", Json.str (city ++ " City Center")), ("rating", Json.str "4.5"),
    ("price_per_night", Json.str "$120"),
    ("amenities", Json.arr (["WiFi", "Pool", "Gym", "Restaurant", "Spa"].map Json.str))],
   Json.obj [
    ("name", Json.str "City View Inn"), ("hotel_id", Json.str "H002"),
    ("address", Json.str (city ++ " Downtown")), ("rating", Json.str "4.2"),
    ("price_per_night", Json.str "$95"),
    ("amenities", Json.arr (["WiFi", "Breakfast", "Parking", "Airport Shuttle"].map Json.str))],
   Json.obj [
    ("name", Json.str "Luxury Suites"), ("hotel_id", Json.str "H003"),
    ("address", Json.str (city ++ " Business District")), ("rating", Json.str "4.8"),
    ("price_per_night", Json.str "$180"),
    ("amenities", Json.arr (["WiFi", "Pool", "Gym", "Restaurant", "Bar", "Spa",
      "Conference Rooms"].map Json.str))],
   Json.obj [
    ("name", Json.str "Budget Stay Hotel"), ("hotel_id", Json.str "H004"),
    ("address", Json.str (city ++ " Airport Area")), ("rating", Json.str "3.9"),
    ("price_per_night", Json.str "$65"),
    ("amenities", Json.arr (["WiFi", "Breakfast", "24/7 Reception"].map Json.str))],
   Json.obj [
    ("name", Json.str "Boutique Heritage Hotel"), ("hotel_id", Json.str "H005"),
    ("address", Json.str (city ++ " Old Town")), ("rating", Json.str "4.6"),
    ("price_per_night", Json.str "$145"),
    ("amenities", Json.arr (["WiFi", "Restaurant", "Rooftop Terrace",
      "Heritage Tours"].map Json.str))]]

/-- Embeds `_get_mock_hotel_data` (lines 104-162): slices the fixed list to
`max_results` and reports `count = min(len(hotels), max_results)`. -/
def get_mock_hotel_data (city check_in check_out : String)
    (guests max_results : Int) : Json :=
  let hotels := mockHotels city
  Json.obj [
    ("success", Json.bool true),
    ("city", Json.str city),
    ("check_in", Json.str check_in),
    ("check_out", Json.str check_out),
    ("guests", Json.num guests),
    ("hotels", Json.arr (pySlice max_results hotels)),
    ("count", Json.num (min (hotels.length : Int) max_results)),
    ("note", Json.str "Sample data shown. Configure AMADEUS_API_KEY for live data.")]

def hotelErrorResult (msg : String) : Json :=
  Json.obj [
    ("success", Json.bool false),
    ("error", Json.str ("Hotel search failed: " ++ msg)),
    ("message", Json.str "Using sample data instead")]

/-- Embeds `search_hotels` (src/app/Tools/hotel_search.py lines 33-101). The request
parameters built from `city` (upper-casing three-letter codes) are data sent
to the provider collaborator and have no further observable effect here. -/
def search_hotels (env : HotelEnv) (city check_in check_out : String)
    (guests max_results : Int) : Json :=
  let missingCreds :=
    match env.amadeusKey, env.amadeusSecret with
    | none, _ => true
    | _, none => true
    | some k, some s => k == "" || s == ""
  if missingCreds then get_mock_hotel_data city check_in check_out guests max_results
  else
    match env.tokenResponse with
    | ProviderOutcome.exn msg => hotelErrorResult msg
    | ProviderOutcome.resp tokStatus tokBody =>
      if tokStatus ≠ 200 then
        get_mock_hotel_data city check_in check_out guests max_results
      else
        match pyDictIndex tokBody "access_token" with
        | Except.error msg => hotelErrorResult msg
        | Except.ok _ =>
          match env.searchResponse with
          | ProviderOutcome.exn msg => hotelErrorResult msg
          | ProviderOutcome.resp status body =>
            if status = 200 then
              match extractHotels city max_results body with
              | Except.ok hotels => liveHotelResult city check_in check_out guests hotels
              | Except.error msg => hotelErrorResult msg
            else get_mock_hotel_data city check_in check_out guests max_results

end HotelTool

section ApiLayer

/-- Message roles. `tool` never reaches session memory; it exists so the
no-scratch-leakage property is not vacuous. -/
inductive Role where
  | user
  | assistant
  | tool
deriving DecidableEq, Repr

structure Message where
  role : Role
  content : String
deriving DecidableEq, Repr

/-- The module-level `sessions` dict of src/app/api/main.py, keyed by session
id; the observable part of each value is the ConversationBufferMemory message
list (`created_at` is an opaque string with no behavior). -/
abbrev Sessions := List (String × List Message)

def lookupMem (ss : Sessions) (sid : String) : Option (List Message) :=
  (ss.find? (fun p => p.1 == sid)).map (·.2)

def setMem (ss : Sessions) (sid : String) (mem : List Message) : Sessions :=
  ss.map (fun p => if p.1 == sid then (p.1, mem) else p)

/-- The reasoning-model collaborator behind `agent_executor.invoke`: from the
user input and the chat history it produces the output text, or raises. -/
abbrev AgentFun := String → List Message → Except String String

structure ChatRequest where
  message : String
  session_id : Option String

/-- Outcome of the `/api/chat` endpoint: a ChatResponse, or the HTTPException
raised by the `except` handler. -/
inductive ChatOutcome where
  | ok (response : String) (session_id : String)
  | httpError (status : Nat) (detail : String)
deriving DecidableEq, Repr

/-- Embeds `request.session_id or str(uuid.uuid4())`: an absent and an empty
session id alike draw the fresh uuid `freshId`. -/
def resolveSid (freshId : String) (req : ChatRequest) : String :=
  match req.session_id with
  | none => freshId
  | some s => if s == "" then freshId else s

/-- Lines 115-119: an unknown session id gets a fresh empty session entry. -/
def getOrCreate (ss : Sessions) (sid : String) : Sessions :=
  match lookupMem ss sid with
  | some _ => ss
  | none => ss ++ [(sid, [])]

/-- The `chat` endpoint (src/app/api/main.py lines 99-143). Session creation
happens before the agent call, so a newly created empty session persists even
when the agent then raises; the two memory appends happen only after a
successful agent call. -/
def chat (agent : AgentFun) (freshId : String) (ss : Sessions) (req : ChatRequest) :
    ChatOutcome × Sessions :=
  let sid := resolveSid freshId req
  let ss1 := getOrCreate ss sid
  let memory := (lookupMem ss1 sid).getD []
  match agent req.message memory with
  | Except.error e =>
    (ChatOutcome.httpError 500 ("Error processing request: " ++ e), ss1)
  | Except.ok out =>
    (ChatOutcome.ok out sid,
     setMem ss1 sid (memory ++ [⟨Role.user, req.message⟩, ⟨Role.assistant, out⟩]))

/-- Outcome of the `/api/session/{id}` DELETE endpoint. -/
inductive DeleteOutcome where
  | ok (session_id : String)
  | httpError (status : Nat) (detail : String)
deriving DecidableEq, Repr

/-- The `delete_session` endpoint (src/app/api/main.py lines 146-158). -/
def delete_session (ss : Sessions) (sid : String) : DeleteOutcome × Sessions :=
  if (lookupMem ss sid).isSome then
    (DeleteOutcome.ok sid, ss.filter (fun p => !(p.1 == sid)))
  else
    (DeleteOutcome.httpError 404 "Session not found", ss)

/-- A sequence of chat turns on one fixed session id, each required to
succeed: `some` of the final session table when every turn returns a
ChatResponse, `none` as soon as one fails. -/
def chatSeq (agent : AgentFun) (freshId : String) (sid : String) (ss : Sessions) :
    List String → Option Sessions
  | [] => some ss
  | m :: rest =>
    match chat agent freshId ss ⟨m, some sid⟩ with
    | (ChatOutcome.ok _ _, ss1) => chatSeq agent freshId sid ss1 rest
    | (ChatOutcome.httpError _ _, _) => none

end ApiLayer

section ReasoningLoop

/-- Modelled from the spec: the ReasoningLoop implementation (the LangChain
AgentExecutor) is not part of src/; src/app/agent/travel_agent.py lines 70-77
only configure it with `max_iterations = 10`, `handle_parsing_errors = True`
and `early_stopping_method = "generate"`. Following spec section 4.4: one
parse outcome of the reasoning model per THINKING step — a final answer, a
tool call, or malformed output. -/
inductive ModelOutput where
  | finalAnswer (text : String)
  | toolCall (tool_name : String) (args : List (String × String))
  | malformed (raw : String)

/-- Modelled from the spec: the reasoning-model collaborator, as a function
of the scratch log — `step` is one THINKING invocation, `generate` is the
final best-effort generation requested at the iteration cap. -/
structure ReasoningModel where
  step : List String → ModelOutput
  generate : List String → String

/-- The iteration cap configured at src/app/agent/travel_agent.py line 75. -/
def maxIterations : Nat := 10

/-- Modelled from the spec: the THINKING→ACTING→OBSERVING loop of spec
section 4.4 with `fuel` iterations remaining. A final answer ends the run;
a tool call appends the observation to the scratch log and loops; malformed
output appends a corrective observation and loops (handle_parsing_errors);
exhausted fuel asks the model to generate a best-effort answer
(early_stopping_method = "generate"). Returns (iterations consumed, answer). -/
def runLoopAux (m : ReasoningModel) (tools : String → List (String × String) → String) :
    Nat → List String → Nat × String
  | 0, scratch => (0, m.generate scratch)
  | fuel + 1, scratch =>
    match m.step scratch with
    | ModelOutput.finalAnswer t => (0, t)
    | ModelOutput.toolCall name args =>
      let r := runLoopAux m tools fuel (scratch ++ [tools name args])
      (r.1 + 1, r.2)
    | ModelOutput.malformed _ =>
      let r := runLoopAux m tools fuel
        (scratch ++ ["the last output could not be parsed, correct the format"])
      (r.1 + 1, r.2)

/-- Modelled from the spec: one full run over a user message. -/
def runLoop (m : ReasoningModel) (tools : String → List (String × String) → String)
    (input : String) : Nat × String :=
  runLoopAux m tools maxIterations [input]

end ReasoningLoop


/-! ## Helper lemmas -/

theorem data_append (a b : String) : (a ++ b).data = a.data ++ b.data := by
  cases a; cases b; rfl

theorem digitChar10_isDigit (n : Nat) : (digitChar10 n).isDigit = true := by
  unfold digitChar10
  split <;> rfl

theorem padNumAux_length (w : Nat) : ∀ n, (padNumAux w n).length = w := by
  induction w with
  | zero => intro n; rfl
  | succ w ih => intro n; simp [padNumAux, ih]

theorem padNumAux_digits (w : Nat) : ∀ n, ∀ c ∈ padNumAux w n, c.isDigit = true := by
  induction w with
  | zero => intro n c hc; simp [padNumAux] at hc
  | succ w ih =>
    intro n c hc
    simp only [padNumAux, List.mem_append, List.mem_singleton] at hc
    rcases hc with hc | hc
    · exact ih _ c hc
    · subst hc; exact digitChar10_isDigit n

theorem charUp_eq_of_charLow (c : Char) (p : Char × Char)
    (hp : p ∈ asciiCaseTable) (h : charLow c = p.1) : charUp c = p.2 := by
  have hfind : ∀ q ∈ asciiCaseTable,
      List.find? (fun r => r.1 == q.1) asciiCaseTable = some q := by decide
  have hupfix : ∀ q ∈ asciiCaseTable,
      List.find? (fun r => r.1 == q.2) asciiCaseTable = none := by decide
  have hinj : ∀ a ∈ asciiCaseTable, ∀ b ∈ asciiCaseTable, a.1 = b.1 → a = b := by decide
  unfold charLow at h
  cases hf : List.find? (fun q => q.2 == c) asciiCaseTable with
  | none =>
    rw [hf] at h
    subst h
    unfold charUp
    rw [hfind p hp]
  | some q =>
    rw [hf] at h
    have hqmem := List.mem_of_find?_eq_some hf
    have hqc : q.2 = c := by
      have := List.find?_some hf
      simpa using this
    have hqp : q = p := hinj q hqmem p hp h
    subst hqp
    unfold charUp
    rw [← hqc, hupfix q hqmem]

/-! ## C3: invalid booking type -/

/-- C3: for every invocation of the booking tool with a booking_type whose
lowercase form is not flight or hotel, the result has success:false and no
BookingRecord is written — the persisted booking store is unchanged. -/
theorem create_booking_invalid_type_rejected (env : BookingEnv) (store : BookingStore)
    (a : BookingArgs) (h : pyLower a.booking_type ∉ ["flight", "hotel"]) :
    ((create_booking env store a).1).getField "success" = some (Json.bool false) ∧
    (create_booking env store a).2 = store := by
  unfold create_booking
  rw [if_pos h]
  exact ⟨rfl, rfl⟩

/-- Witness for C3 at booking_type "car". -/
theorem create_booking_invalid_type_rejected_witness :
    ((create_booking ⟨fun _ => none, ⟨2025, 6, 1, 12, 0, 0⟩, none⟩ []
        ⟨"car", "details", "A. Traveler", "a@x.com"⟩).1).getField "success"
      = some (Json.bool false) ∧
    (create_booking ⟨fun _ => none, ⟨2025, 6, 1, 12, 0, 0⟩, none⟩ []
        ⟨"car", "details", "A. Traveler", "a@x.com"⟩).2 = [] :=
  create_booking_invalid_type_rejected _ _ _ (by decide)

/-! ## C8: textual booking details are wrapped, not rejected -/

/-- C8: for every create_booking call with a valid booking type whose
booking_details text is not parseable as JSON, the call succeeds and both the
returned record and the stored record carry
booking_details = an object with a single description field holding that text. -/
theorem create_booking_wraps_text_details (env : BookingEnv) (store : BookingStore)
    (a : BookingArgs)
    (hvalid : pyLower a.booking_type ∈ ["flight", "hotel"])
    (hparse : env.loads a.booking_details = none)
    (hwrite : env.writeError = none) :
    ((create_booking env store a).1).getField "booking_details"
      = some (Json.obj [("description", Json.str a.booking_details)]) ∧
    ((create_booking env store a).1).getField "success" = some (Json.bool true) ∧
    (create_booking env store a).2
      = store ++ [(pyStrSlice 3 (pyUpper a.booking_type) ++ "-" ++ fmtTimestamp env.now
          ++ ".json", (create_booking env store a).1)] := by
  unfold create_booking
  rw [if_neg (by simp only [not_not]; exact hvalid), hparse, hwrite]
  exact ⟨rfl, rfl, rfl⟩

/-- Witness for C8: a hotel booking whose details are plain text. -/
theorem create_booking_wraps_text_details_witness :
    ((create_booking ⟨fun _ => none, ⟨2025, 6, 1, 12, 0, 0⟩, none⟩ []
        ⟨"hotel", "Grand Plaza, 2 nights", "A. Traveler", "a@x.com"⟩).1).getField
        "booking_details"
      = some (Json.obj [("description", Json.str "Grand Plaza, 2 nights")]) ∧
    ((create_booking ⟨fun _ => none, ⟨2025, 6, 1, 12, 0, 0⟩, none⟩ []
        ⟨"hotel", "Grand Plaza, 2 nights", "A. Traveler", "a@x.com"⟩).1).getField "success"
      = some (Json.bool true) ∧
    (create_booking ⟨fun _ => none, ⟨2025, 6, 1, 12, 0, 0⟩, none⟩ []
        ⟨"hotel", "Grand Plaza, 2 nights", "A. Traveler", "a@x.com"⟩).2
      = [] ++ [(pyStrSlice 3 (pyUpper "hotel") ++ "-"
          ++ fmtTimestamp ⟨2025, 6, 1, 12, 0, 0⟩ ++ ".json",
         (create_booking ⟨fun _ => none, ⟨2025, 6, 1, 12, 0, 0⟩, none⟩ []
           ⟨"hotel", "Grand Plaza, 2 nights", "A. Traveler", "a@x.com"⟩).1)] :=
  create_booking_wraps_text_details _ _ _ (by decide) rfl rfl

theorem take3_up_of_low_hotel (s : String) (h : pyLower s = "hotel") :
    (pyUpper s).data.take 3 = ['H', 'O', 'T'] := by
  have hd : s.data.map charLow = ['h', 'o', 't', 'e', 'l'] := congrArg String.data h
  show (s.data.map charUp).take 3 = ['H', 'O', 'T']
  rcases hs : s.data with _ | ⟨c1, _ | ⟨c2, _ | ⟨c3, t⟩⟩⟩
  · rw [hs] at hd; simp at hd
  · rw [hs] at hd; simp at hd
  · rw [hs] at hd; simp at hd
  · rw [hs] at hd
    simp only [List.map_cons, List.cons.injEq] at hd
    obtain ⟨h1, h2, h3, -⟩ := hd
    simp only [List.map_cons, List.take_succ_cons, List.take_zero]
    rw [charUp_eq_of_charLow c1 ('h', 'H') (by decide) h1,
        charUp_eq_of_charLow c2 ('o', 'O') (by decide) h2,
        charUp_eq_of_charLow c3 ('t', 'T') (by decide) h3]

/-! ## C5: successful bookings are CONFIRMED with a typed, timestamped reference -/

/-- C5: every successful create_booking call returns success:true, status
CONFIRMED, and a booking_reference built from the first three uppercase
letters of the booking type followed by the second-resolution timestamp; in
particular the reference of a hotel booking matches HOT-\d\x7b14\x7d. The year
bounds state the validity range of the strftime embedding, which
`datetime.now()` always satisfies. -/
theorem create_booking_success_confirmed (env : BookingEnv) (store : BookingStore)
    (a : BookingArgs)
    (hvalid : pyLower a.booking_type ∈ ["flight", "hotel"])
    (hwrite : env.writeError = none)
    (hyear : 1000 ≤ env.now.year ∧ env.now.year ≤ 9999) :
    ((create_booking env store a).1).getField "success" = some (Json.bool true) ∧
    ((create_booking env store a).1).getField "status" = some (Json.str "CONFIRMED") ∧
    ((create_booking env store a).1).getField "booking_reference"
      = some (Json.str (pyStrSlice 3 (pyUpper a.booking_type) ++ "-" ++ fmtTimestamp env.now)) ∧
    (pyLower a.booking_type = "hotel" →
      matchesHotPattern
        (pyStrSlice 3 (pyUpper a.booking_type) ++ "-" ++ fmtTimestamp env.now) = true) := by
  have hneg : ¬ pyLower a.booking_type ∉ ["flight", "hotel"] := by
    simp only [not_not]; exact hvalid
  refine ⟨?_, ?_, ?_, ?_⟩
  · unfold create_booking
    rw [if_neg hneg, hwrite]
    rfl
  · unfold create_booking
    rw [if_neg hneg, hwrite]
    rfl
  · unfold create_booking
    rw [if_neg hneg, hwrite]
    rfl
  · intro hlow
    have h3 := take3_up_of_low_hotel _ hlow
    have hdata : (pyStrSlice 3 (pyUpper a.booking_type) ++ "-" ++ fmtTimestamp env.now).data
        = 'H' :: 'O' :: 'T' :: '-' ::
          (padNumAux 4 env.now.year ++ padNumAux 2 env.now.month ++ padNumAux 2 env.now.day ++
           padNumAux 2 env.now.hour ++ padNumAux 2 env.now.minute ++
           padNumAux 2 env.now.second) := by
      rw [data_append, data_append]
      rw [show (pyStrSlice 3 (pyUpper a.booking_type)).data
            = (pyUpper a.booking_type).data.take 3 from rfl, h3]
      rfl
    unfold matchesHotPattern
    rw [hdata]
    simp only [Bool.and_eq_true, beq_iff_eq, List.all_eq_true]
    refine ⟨?_, ?_⟩
    · simp [List.length_append, padNumAux_length]
    · intro c hc
      simp only [List.mem_append] at hc
      rcases hc with ((((h | h) | h) | h) | h) | h <;> exact padNumAux_digits _ _ c h

/-- Witness for C5: the concrete hotel-booking scenario from the spec. -/
theorem create_booking_success_confirmed_witness :
    ((create_booking ⟨fun _ => none, ⟨2025, 6, 1, 12, 0, 0⟩, none⟩ []
        ⟨"hotel", "Grand Plaza, 2 nights", "A. Traveler", "a@x.com"⟩).1).getField "success"
      = some (Json.bool true) ∧
    ((create_booking ⟨fun _ => none, ⟨2025, 6, 1, 12, 0, 0⟩, none⟩ []
        ⟨"hotel", "Grand Plaza, 2 nights", "A. Traveler", "a@x.com"⟩).1).getField "status"
      = some (Json.str "CONFIRMED") ∧
    ((create_booking ⟨fun _ => none, ⟨2025, 6, 1, 12, 0, 0⟩, none⟩ []
        ⟨"hotel", "Grand Plaza, 2 nights", "A. Traveler", "a@x.com"⟩).1).getField
        "booking_reference"
      = some (Json.str (pyStrSlice 3 (pyUpper "hotel") ++ "-"
          ++ fmtTimestamp ⟨2025, 6, 1, 12, 0, 0⟩)) ∧
    (pyLower "hotel" = "hotel" →
      matchesHotPattern (pyStrSlice 3 (pyUpper "hotel") ++ "-"
        ++ fmtTimestamp ⟨2025, 6, 1, 12, 0, 0⟩) = true) :=
  create_booking_success_confirmed ⟨fun _ => none, ⟨2025, 6, 1, 12, 0, 0⟩, none⟩ []
    ⟨"hotel", "Grand Plaza, 2 nights", "A. Traveler", "a@x.com"⟩
    (by decide) rfl ⟨by decide, by decide⟩

/-! ## C9: session deletion semantics -/

theorem lookupMem_filter_ne (ss : Sessions) (sid : String) :
    lookupMem (ss.filter (fun p => !(p.1 == sid))) sid = none := by
  unfold lookupMem
  rw [List.find?_eq_none.mpr]
  · rfl
  · intro a ha
    have hmem := (List.mem_filter.mp ha).2
    simp only [Bool.not_eq_true'] at hmem
    simp [hmem]

/-- C9: deleting a present session succeeds and discards it; deleting an
absent session fails with the 404 session-not-found error and changes
nothing; hence deleting the same session twice has the first call succeed
and the second fail. -/
theorem delete_session_semantics :
    (∀ ss sid, (lookupMem ss sid).isSome = true →
      (delete_session ss sid).1 = DeleteOutcome.ok sid ∧
      lookupMem (delete_session ss sid).2 sid = none) ∧
    (∀ ss sid, lookupMem ss sid = none →
      (delete_session ss sid).1 = DeleteOutcome.httpError 404 "Session not found" ∧
      (delete_session ss sid).2 = ss) ∧
    (∀ ss sid, (lookupMem ss sid).isSome = true →
      (delete_session ss sid).1 = DeleteOutcome.ok sid ∧
      (delete_session (delete_session ss sid).2 sid).1
        = DeleteOutcome.httpError 404 "Session not found") := by
  have hpresent : ∀ ss sid, (lookupMem ss sid).isSome = true →
      (delete_session ss sid).1 = DeleteOutcome.ok sid ∧
      lookupMem (delete_session ss sid).2 sid = none := by
    intro ss sid h
    unfold delete_session
    rw [if_pos h]
    exact ⟨rfl, lookupMem_filter_ne ss sid⟩
  have habsent : ∀ ss sid, lookupMem ss sid = none →
      (delete_session ss sid).1 = DeleteOutcome.httpError 404 "Session not found" ∧
      (delete_session ss sid).2 = ss := by
    intro ss sid h
    unfold delete_session
    rw [if_neg (by simp [h])]
    exact ⟨rfl, rfl⟩
  refine ⟨hpresent, habsent, ?_⟩
  intro ss sid h
  obtain ⟨h1, h2⟩ := hpresent ss sid h
  exact ⟨h1, (habsent _ sid h2).1⟩

/-! ## Chat turn helpers -/

theorem lookupMem_append_empty (ss : Sessions) (sid : String)
    (h : lookupMem ss sid = none) :
    lookupMem (ss ++ [(sid, [])]) sid = some [] := by
  induction ss with
  | nil => simp [lookupMem, List.find?]
  | cons p t ih =>
    unfold lookupMem at h ih ⊢
    rw [List.cons_append]
    rw [List.find?_cons] at h ⊢
    cases hp : p.1 == sid with
    | true => rw [hp] at h; exact Option.noConfusion h
    | false => rw [hp] at h; exact ih h

theorem lookupMem_setMem (ss : Sessions) (sid : String) (mem : List Message)
    (h : (lookupMem ss sid).isSome = true) :
    lookupMem (setMem ss sid mem) sid = some mem := by
  induction ss with
  | nil => simp [lookupMem] at h
  | cons p t ih =>
    show lookupMem ((if p.1 == sid then (p.1, mem) else p) :: setMem t sid mem) sid = some mem
    by_cases hp : (p.1 == sid) = true
    · simp [lookupMem, List.find?_cons, hp]
    · have hp' : (p.1 == sid) = false := by simpa using hp
      have ht : (lookupMem t sid).isSome = true := by
        unfold lookupMem at h ⊢
        rw [List.find?_cons, hp'] at h
        exact h
      have hres := ih ht
      unfold lookupMem at hres ⊢
      rw [if_neg hp, List.find?_cons, hp']
      exact hres

theorem resolveSid_some (freshId m sid : String) (hsid : (sid == "") = false) :
    resolveSid freshId ⟨m, some sid⟩ = sid := by
  unfold resolveSid
  simp [hsid]

theorem mem_getOrCreate (ss : Sessions) (sid : String) :
    (lookupMem (getOrCreate ss sid) sid).getD [] = (lookupMem ss sid).getD [] := by
  unfold getOrCreate
  cases hls : lookupMem ss sid with
  | some mem => rw [hls]
  | none => rw [lookupMem_append_empty ss sid hls]; rfl

theorem lookupMem_getOrCreate_isSome (ss : Sessions) (sid : String) :
    (lookupMem (getOrCreate ss sid) sid).isSome = true := by
  unfold getOrCreate
  cases hls : lookupMem ss sid with
  | some mem => rw [hls]; rfl
  | none => rw [lookupMem_append_empty ss sid hls]; rfl

/-- One unfolding equation for a chat turn on a nonempty explicit session id. -/
theorem chat_eq (agent : AgentFun) (freshId : String) (ss : Sessions) (m sid : String)
    (hsid : (sid == "") = false) :
    chat agent freshId ss ⟨m, some sid⟩ =
      match agent m ((lookupMem ss sid).getD []) with
      | Except.error e =>
        (ChatOutcome.httpError 500 ("Error processing request: " ++ e), getOrCreate ss sid)
      | Except.ok out =>
        (ChatOutcome.ok out sid,
         setMem (getOrCreate ss sid) sid ((lookupMem ss sid).getD []
           ++ [⟨Role.user, m⟩, ⟨Role.assistant, out⟩])) := by
  simp only [chat]
  rw [resolveSid_some freshId m sid hsid, mem_getOrCreate ss sid]

theorem chat_ok_pair (agent : AgentFun) (freshId : String) (ss : Sessions)
    (m sid out : String) (hsid : (sid == "") = false)
    (hok : agent m ((lookupMem ss sid).getD []) = Except.ok out) :
    chat agent freshId ss ⟨m, some sid⟩
      = (ChatOutcome.ok out sid,
         setMem (getOrCreate ss sid) sid ((lookupMem ss sid).getD []
           ++ [⟨Role.user, m⟩, ⟨Role.assistant, out⟩])) ∧
    lookupMem (chat agent freshId ss ⟨m, some sid⟩).2 sid
      = some ((lookupMem ss sid).getD [] ++ [⟨Role.user, m⟩, ⟨Role.assistant, out⟩]) := by
  have he := chat_eq agent freshId ss m sid hsid
  rw [hok] at he
  refine ⟨he, ?_⟩
  rw [he]
  exact lookupMem_setMem _ sid _ (lookupMem_getOrCreate_isSome ss sid)

theorem chat_err_pair (agent : AgentFun) (freshId : String) (ss : Sessions)
    (m sid e : String) (hsid : (sid == "") = false)
    (herr : agent m ((lookupMem ss sid).getD []) = Except.error e) :
    chat agent freshId ss ⟨m, some sid⟩
      = (ChatOutcome.httpError 500 ("Error processing request: " ++ e), getOrCreate ss sid) ∧
    (lookupMem (chat agent freshId ss ⟨m, some sid⟩).2 sid).getD []
      = (lookupMem ss sid).getD [] := by
  have he := chat_eq agent freshId ss m sid hsid
  rw [herr] at he
  refine ⟨he, ?_⟩
  rw [he]
  exact mem_getOrCreate ss sid

/-! ## C7: a failed reasoning run surfaces one error and leaves memory unchanged -/

/-- C7: when the reasoning run raises, chat surfaces exactly one orchestration
error (HTTP 500) and the session message list is unchanged; when it
succeeds, the user and assistant messages of the turn are both appended — the turn
is atomic with respect to session memory. -/
theorem chat_turn_atomic :
    (∀ (agent : AgentFun) (freshId : String) (ss : Sessions) (m sid e : String),
      (sid == "") = false →
      agent m ((lookupMem ss sid).getD []) = Except.error e →
      (chat agent freshId ss ⟨m, some sid⟩).1
        = ChatOutcome.httpError 500 ("Error processing request: " ++ e) ∧
      (lookupMem (chat agent freshId ss ⟨m, some sid⟩).2 sid).getD []
        = (lookupMem ss sid).getD []) ∧
    (∀ (agent : AgentFun) (freshId : String) (ss : Sessions) (m sid out : String),
      (sid == "") = false →
      agent m ((lookupMem ss sid).getD []) = Except.ok out →
      lookupMem (chat agent freshId ss ⟨m, some sid⟩).2 sid
        = some ((lookupMem ss sid).getD [] ++ [⟨Role.user, m⟩, ⟨Role.assistant, out⟩])) := by
  constructor
  · intro agent freshId ss m sid e hsid herr
    obtain ⟨hpair, hmem⟩ := chat_err_pair agent freshId ss m sid e hsid herr
    exact ⟨by rw [hpair], hmem⟩
  · intro agent freshId ss m sid out hsid hok
    exact (chat_ok_pair agent freshId ss m sid out hsid hok).2

/-- Witness for C7: a raising stub agent on one session, and a succeeding one. -/
theorem chat_turn_atomic_witness :
    ((chat (fun _ _ => Except.error "boom") "f" [] ⟨"hi", some "s1"⟩).1
        = ChatOutcome.httpError 500 ("Error processing request: " ++ "boom") ∧
      (lookupMem (chat (fun _ _ => Except.error "boom") "f" [] ⟨"hi", some "s1"⟩).2 "s1").getD []
        = (lookupMem ([] : Sessions) "s1").getD []) ∧
    lookupMem (chat (fun _ _ => Except.ok "reply") "g" [] ⟨"hey", some "s2"⟩).2 "s2"
      = some ((lookupMem ([] : Sessions) "s2").getD []
          ++ [⟨Role.user, "hey"⟩, ⟨Role.assistant, "reply"⟩]) :=
  ⟨chat_turn_atomic.1 (fun _ _ => Except.error "boom") "f" [] "hi" "s1" "boom" rfl rfl,
   chat_turn_atomic.2 (fun _ _ => Except.ok "reply") "g" [] "hey" "s2" "reply" rfl rfl⟩

/-! ## C2: session memory holds exactly the user/assistant pairs -/

theorem chatSeq_len_roles (agent : AgentFun) (freshId sid : String)
    (hsid : (sid == "") = false) :
    ∀ (msgs : List String) (ss final : Sessions),
      chatSeq agent freshId sid ss msgs = some final →
      ((lookupMem final sid).getD []).length
          = ((lookupMem ss sid).getD []).length + 2 * msgs.length ∧
      ((∀ msg ∈ (lookupMem ss sid).getD [], msg.role ≠ Role.tool) →
        ∀ msg ∈ (lookupMem final sid).getD [], msg.role ≠ Role.tool) := by
  intro msgs
  induction msgs with
  | nil =>
    intro ss final h
    simp only [chatSeq, Option.some.injEq] at h
    subst h
    exact ⟨by simp, fun hp => hp⟩
  | cons m rest ih =>
    intro ss final h
    unfold chatSeq at h
    cases ha : agent m ((lookupMem ss sid).getD []) with
    | error e =>
      obtain ⟨hpair, -⟩ := chat_err_pair agent freshId ss m sid e hsid ha
      rw [hpair] at h
      simp at h
    | ok out =>
      obtain ⟨hpair, -⟩ := chat_ok_pair agent freshId ss m sid out hsid ha
      rw [hpair] at h
      obtain ⟨hlen, hroles⟩ := ih _ final h
      have hmem2 := lookupMem_setMem (getOrCreate ss sid) sid
        ((lookupMem ss sid).getD [] ++ [⟨Role.user, m⟩, ⟨Role.assistant, out⟩])
        (lookupMem_getOrCreate_isSome ss sid)
      rw [hmem2] at hlen hroles
      simp only [Option.getD_some] at hlen hroles
      constructor
      · rw [hlen]
        simp [List.length_append]
        omega
      · intro hp
        apply hroles
        intro msg hm
        rcases List.mem_append.mp hm with hold | hnew
        · exact hp msg hold
        · simp only [List.mem_cons, List.not_mem_nil, or_false] at hnew
          rcases hnew with h1 | h1 <;> subst h1 <;> simp
    
/-- C2: starting from a fresh session, after N successful chat turns the
session memory has length exactly 2N and contains no tool-role scratch
entries; each successful turn appends exactly the user message then the
assistant message. -/
theorem session_memory_two_per_turn :
    (∀ (agent : AgentFun) (freshId : String) (ss : Sessions) (m sid out : String),
      (sid == "") = false →
      agent m ((lookupMem ss sid).getD []) = Except.ok out →
      lookupMem (chat agent freshId ss ⟨m, some sid⟩).2 sid
        = some ((lookupMem ss sid).getD [] ++ [⟨Role.user, m⟩, ⟨Role.assistant, out⟩])) ∧
    (∀ (agent : AgentFun) (freshId sid : String) (msgs : List String)
        (ss final : Sessions),
      (sid == "") = false →
      lookupMem ss sid = none →
      chatSeq agent freshId sid ss msgs = some final →
      ((lookupMem final sid).getD []).length = 2 * msgs.length ∧
      ∀ msg ∈ (lookupMem final sid).getD [], msg.role ≠ Role.tool) := by
  constructor
  · intro agent freshId ss m sid out hsid hok
    exact (chat_ok_pair agent freshId ss m sid out hsid hok).2
  · intro agent freshId sid msgs ss final hsid hnone hseq
    obtain ⟨hlen, hroles⟩ := chatSeq_len_roles agent freshId sid hsid msgs ss final hseq
    rw [hnone] at hlen hroles
    simp only [Option.getD_none, List.length_nil, Nat.zero_add] at hlen hroles
    exact ⟨hlen, hroles (by intro msg hm; simp at hm)⟩

/-- Witness for C2: one successful turn on a fresh session. -/
theorem session_memory_two_per_turn_witness :
    lookupMem (chat (fun _ _ => Except.ok "reply") "f" [] ⟨"hi", some "s9"⟩).2 "s9"
      = some ((lookupMem ([] : Sessions) "s9").getD []
          ++ [⟨Role.user, "hi"⟩, ⟨Role.assistant, "reply"⟩]) ∧
    (((lookupMem [("s9", [⟨Role.user, "hi"⟩, ⟨Role.assistant, "reply"⟩])] "s9").getD
        []).length = 2 * (["hi"] : List String).length ∧
      ∀ msg ∈ (lookupMem [("s9", [⟨Role.user, "hi"⟩, ⟨Role.assistant, "reply"⟩])]
          "s9").getD [], msg.role ≠ Role.tool) :=
  ⟨session_memory_two_per_turn.1 (fun _ _ => Except.ok "reply") "f" [] "hi" "s9" "reply"
      rfl rfl,
   session_memory_two_per_turn.2 (fun _ _ => Except.ok "reply") "f" "s9" ["hi"] []
      [("s9", [⟨Role.user, "hi"⟩, ⟨Role.assistant, "reply"⟩])] rfl rfl (by decide)⟩

/-! ## C6: the iteration cap forces a best-effort generated answer -/

theorem runLoopAux_malformed (m : ReasoningModel)
    (tools : String → List (String × String) → String)
    (hstub : ∀ scratch, ∃ raw, m.step scratch = ModelOutput.malformed raw) :
    ∀ (fuel : Nat) (scratch : List String),
      (runLoopAux m tools fuel scratch).1 = fuel ∧
      ∃ s, (runLoopAux m tools fuel scratch).2 = m.generate s := by
  intro fuel
  induction fuel with
  | zero => intro scratch; exact ⟨rfl, scratch, rfl⟩
  | succ n ih =>
    intro scratch
    obtain ⟨raw, hraw⟩ := hstub scratch
    unfold runLoopAux
    rw [hraw]
    obtain ⟨h1, s, h2⟩ := ih
      (scratch ++ ["the last output could not be parsed, correct the format"])
    constructor
    · show (runLoopAux m tools n
        (scratch ++ ["the last output could not be parsed, correct the format"])).1 + 1 = n + 1
      rw [h1]
    · exact ⟨s, h2⟩

/-- C6: with a reasoning model that never produces a parsable output, the
loop terminates after exactly maxIterations (= 10) malformed-output cycles
and returns the nonempty answer produced by the final generate call, rather
than failing or looping forever. The loop itself is modelled from spec
section 4.4 because only its configuration is in src/. -/
theorem iteration_cap_best_effort (m : ReasoningModel)
    (tools : String → List (String × String) → String) (input : String)
    (hstub : ∀ scratch, ∃ raw, m.step scratch = ModelOutput.malformed raw)
    (hgen : ∀ scratch, m.generate scratch ≠ "") :
    (runLoop m tools input).1 = maxIterations ∧
    (∃ scratch, (runLoop m tools input).2 = m.generate scratch) ∧
    (runLoop m tools input).2 ≠ "" := by
  unfold runLoop
  obtain ⟨h1, s, h2⟩ := runLoopAux_malformed m tools hstub maxIterations [input]
  exact ⟨h1, ⟨s, h2⟩, by rw [h2]; exact hgen s⟩

/-- Witness for C6: a stub model that always emits unparsable output. -/
theorem iteration_cap_best_effort_witness :
    (runLoop ⟨fun _ => ModelOutput.malformed "??", fun _ => "best effort"⟩
        (fun _ _ => "") "hi").1 = maxIterations ∧
    (∃ scratch,
      (runLoop ⟨fun _ => ModelOutput.malformed "??", fun _ => "best effort"⟩
          (fun _ _ => "") "hi").2
        = ReasoningModel.generate
            ⟨fun _ => ModelOutput.malformed "??", fun _ => "best effort"⟩ scratch) ∧
    (runLoop ⟨fun _ => ModelOutput.malformed "??", fun _ => "best effort"⟩
        (fun _ _ => "") "hi").2 ≠ "" :=
  iteration_cap_best_effort
    ⟨fun _ => ModelOutput.malformed "??", fun _ => "best effort"⟩
    (fun _ _ => "") "hi" (fun _ => ⟨"??", rfl⟩)
    (by intro s; show "best effort" ≠ ""; decide)

/-! ## C4: mock fallback shape; the spec claims a source tag that the code
does not emit -/

/-- Counterexample to C4 as stated: with no credentials configured, the
flight adapter returns the mock payload, and that payload has no "source"
field at all (no result of either adapter ever carries one); moreover, when
the provider call fails by raising (credentials present, request raises),
the adapter returns a success:false error payload, not the mock result. -/
theorem flight_mock_lacks_source_field :
    (search_flights ⟨none, ProviderOutcome.resp 200 Json.null⟩ "JFK" "CDG" "2025-06-01"
        none).getField "source" = none ∧
    search_flights ⟨some "KEY", ProviderOutcome.exn "timeout"⟩ "JFK" "CDG" "2025-06-01"
        none ≠ get_mock_flight_data "JFK" "CDG" "2025-06-01" none ∧
    (search_flights ⟨some "KEY", ProviderOutcome.exn "timeout"⟩ "JFK" "CDG" "2025-06-01"
        none).getField "success" = some (Json.bool false) := by
  refine ⟨rfl, ?_, rfl⟩
  intro h
  have hnote : (search_flights ⟨some "KEY", ProviderOutcome.exn "timeout"⟩ "JFK" "CDG"
      "2025-06-01" none).getField "note"
      = (get_mock_flight_data "JFK" "CDG" "2025-06-01" none).getField "note" := by rw [h]
  exact Option.noConfusion hnote

/-- C4 (amended): with absent or empty credentials, or a non-success provider
status, the search adapters return the deterministic mock result (a pure
function of the arguments); its top-level field names are exactly the field
names of the live result plus a trailing advisory "note" string field, and
that note string — not a source:"mock" tag — is what distinguishes mock from
live output. (A provider exception instead degrades to a success:false error
result, per the counterexample and C1.) -/
theorem mock_fallback_shape_compatible :
    (∀ (rsp : ProviderOutcome) (origin destination departure_date : String)
        (return_date : Option String),
      search_flights ⟨none, rsp⟩ origin destination departure_date return_date
        = get_mock_flight_data origin destination departure_date return_date) ∧
    (∀ (rsp : ProviderOutcome) (origin destination departure_date : String)
        (return_date : Option String),
      search_flights ⟨some "", rsp⟩ origin destination departure_date return_date
        = get_mock_flight_data origin destination departure_date return_date) ∧
    (∀ (key : String) (status : Nat) (body : Json)
        (origin destination departure_date : String) (return_date : Option String),
      status ≠ 200 →
      search_flights ⟨some key, ProviderOutcome.resp status body⟩ origin destination
          departure_date return_date
        = get_mock_flight_data origin destination departure_date return_date) ∧
    (∀ (origin destination departure_date : String) (return_date : Option String)
        (flights : List Json),
      (get_mock_flight_data origin destination departure_date return_date).fieldNames
        = (liveFlightResult origin destination departure_date return_date
            flights).fieldNames ++ ["note"]) ∧
    (∀ (origin destination departure_date : String) (return_date : Option String),
      (get_mock_flight_data origin destination departure_date return_date).getField "note"
        = some (Json.str "Sample data shown. Configure SERPAPI_KEY for live data.")) ∧
    (∀ (tok srch : ProviderOutcome) (sec : Option String) (city check_in check_out : String)
        (guests max_results : Int),
      search_hotels ⟨none, sec, tok, srch⟩ city check_in check_out guests max_results
        = get_mock_hotel_data city check_in check_out guests max_results) ∧
    (∀ (key : String) (tok srch : ProviderOutcome) (city check_in check_out : String)
        (guests max_results : Int),
      search_hotels ⟨some key, none, tok, srch⟩ city check_in check_out guests max_results
        = get_mock_hotel_data city check_in check_out guests max_results) ∧
    (∀ (key secret : String) (tok srch : ProviderOutcome)
        (city check_in check_out : String) (guests max_results : Int),
      key = "" ∨ secret = "" →
      search_hotels ⟨some key, some secret, tok, srch⟩ city check_in check_out guests
          max_results = get_mock_hotel_data city check_in check_out guests max_results) ∧
    (∀ (key secret : String) (tokStatus : Nat) (tokBody : Json) (srch : ProviderOutcome)
        (city check_in check_out : String) (guests max_results : Int),
      tokStatus ≠ 200 →
      search_hotels ⟨some key, some secret, ProviderOutcome.resp tokStatus tokBody, srch⟩
          city check_in check_out guests max_results
        = get_mock_hotel_data city check_in check_out guests max_results) ∧
    (∀ (key secret : String) (tokBody tokval : Json) (status : Nat) (body : Json)
        (city check_in check_out : String) (guests max_results : Int),
      pyDictIndex tokBody "access_token" = Except.ok tokval →
      status ≠ 200 →
      search_hotels ⟨some key, some secret, ProviderOutcome.resp 200 tokBody,
          ProviderOutcome.resp status body⟩ city check_in check_out guests max_results
        = get_mock_hotel_data city check_in check_out guests max_results) ∧
    (∀ (city check_in check_out : String) (guests max_results : Int) (hotels : List Json),
      (get_mock_hotel_data city check_in check_out guests max_results).fieldNames
        = (liveHotelResult city check_in check_out guests hotels).fieldNames ++ ["note"]) ∧
    (∀ (city check_in check_out : String) (guests max_results : Int),
      (get_mock_hotel_data city check_in check_out guests max_results).getField "note"
        = some (Json.str "Sample data shown. Configure AMADEUS_API_KEY for live data.")) := by
  refine ⟨fun _ _ _ _ _ => rfl, fun _ _ _ _ _ => rfl, ?_, fun _ _ _ _ _ => rfl,
    fun _ _ _ _ => rfl, fun _ _ sec _ _ _ _ _ => by cases sec <;> rfl,
    fun _ _ _ _ _ _ _ _ => rfl, ?_, ?_, ?_,
    fun _ _ _ _ _ _ => rfl, fun _ _ _ _ _ => rfl⟩
  · intro key status body origin destination departure_date return_date h
    by_cases hk : key = ""
    · subst hk; rfl
    · simp only [search_flights]
      rw [if_neg hk, if_neg h]
  · intro key secret tok srch city check_in check_out guests max_results h
    have hks : (key == "" || secret == "") = true := by
      rcases h with h | h <;> simp [h]
    simp only [search_hotels]
    rw [if_pos hks]
  · intro key secret tokStatus tokBody srch city check_in check_out guests max_results h
    by_cases hks : (key == "" || secret == "") = true
    · simp only [search_hotels]
      rw [if_pos hks]
    · simp only [search_hotels]
      rw [if_neg hks, if_pos h]
  · intro key secret tokBody tokval status body city check_in check_out guests
      max_results htok hst
    by_cases hks : (key == "" || secret == "") = true
    · simp only [search_hotels]
      rw [if_pos hks]
    · simp only [search_hotels]
      rw [if_neg hks, if_neg (by simp), htok, if_neg hst]

/-- Witness for the amended C4: concrete non-success statuses, an empty
credential, and a valid token body with a failing hotel-list request all
yield the mock payload. -/
theorem mock_fallback_shape_compatible_witness :
    search_flights ⟨some "KEY", ProviderOutcome.resp 500 Json.null⟩ "JFK" "CDG"
        "2025-06-01" none = get_mock_flight_data "JFK" "CDG" "2025-06-01" none ∧
    search_hotels ⟨some "", some "SECRET", ProviderOutcome.resp 200 Json.null,
        ProviderOutcome.resp 200 Json.null⟩ "Paris" "2025-06-01" "2025-06-03" 2 5
      = get_mock_hotel_data "Paris" "2025-06-01" "2025-06-03" 2 5 ∧
    search_hotels ⟨some "KEY", some "SECRET", ProviderOutcome.resp 500 Json.null,
        ProviderOutcome.resp 200 Json.null⟩ "Paris" "2025-06-01" "2025-06-03" 2 5
      = get_mock_hotel_data "Paris" "2025-06-01" "2025-06-03" 2 5 ∧
    search_hotels ⟨some "KEY", some "SECRET",
        ProviderOutcome.resp 200 (Json.obj [("access_token", Json.str "tok")]),
        ProviderOutcome.resp 404 Json.null⟩ "Paris" "2025-06-01" "2025-06-03" 2 5
      = get_mock_hotel_data "Paris" "2025-06-01" "2025-06-03" 2 5 :=
  ⟨mock_fallback_shape_compatible.2.2.1 "KEY" 500 Json.null "JFK" "CDG" "2025-06-01" none
      (by decide),
   mock_fallback_shape_compatible.2.2.2.2.2.2.2.1 "" "SECRET"
      (ProviderOutcome.resp 200 Json.null) (ProviderOutcome.resp 200 Json.null)
      "Paris" "2025-06-01" "2025-06-03" 2 5 (Or.inl rfl),
   mock_fallback_shape_compatible.2.2.2.2.2.2.2.2.1 "KEY" "SECRET" 500 Json.null
      (ProviderOutcome.resp 200 Json.null) "Paris" "2025-06-01" "2025-06-03" 2 5
      (by decide),
   mock_fallback_shape_compatible.2.2.2.2.2.2.2.2.2.1 "KEY" "SECRET"
      (Json.obj [("access_token", Json.str "tok")]) (Json.str "tok") 404 Json.null
      "Paris" "2025-06-01" "2025-06-03" 2 5 rfl (by decide)⟩

/-! ## C1: adapters always return a well-formed result and degrade on failure -/

/-- C1: every adapter invocation, under every environment outcome (missing
credentials, provider response of any status, provider exception, filesystem
write failure), returns a structured JSON result carrying a boolean success
flag — the adapter functions are total, the embedded image of the Python
try/except boundary that never lets an exception escape. A provider
exception in the flight search degrades to the mock payload or a
success:false result, and a failed booking write degrades to success:false
with the store untouched. -/
theorem tool_adapters_never_raise :
    (∀ (env : FlightEnv) (origin destination departure_date : String)
        (return_date : Option String), ∃ b,
      (search_flights env origin destination departure_date return_date).getField "success"
        = some (Json.bool b)) ∧
    (∀ (env : HotelEnv) (city check_in check_out : String) (guests max_results : Int), ∃ b,
      (search_hotels env city check_in check_out guests max_results).getField "success"
        = some (Json.bool b)) ∧
    (∀ (env : BookingEnv) (store : BookingStore) (a : BookingArgs), ∃ b,
      ((create_booking env store a).1).getField "success" = some (Json.bool b)) ∧
    (∀ (key msg origin destination departure_date : String) (return_date : Option String),
      search_flights ⟨some key, ProviderOutcome.exn msg⟩ origin destination departure_date
          return_date = get_mock_flight_data origin destination departure_date return_date ∨
      (search_flights ⟨some key, ProviderOutcome.exn msg⟩ origin destination departure_date
          return_date).getField "success" = some (Json.bool false)) ∧
    (∀ (loads : String → Option Json) (now : DateTime) (msg : String)
        (store : BookingStore) (a : BookingArgs),
      ((create_booking ⟨loads, now, some msg⟩ store a).1).getField "success"
        = some (Json.bool false) ∧
      (create_booking ⟨loads, now, some msg⟩ store a).2 = store) := by
  refine ⟨?_, ?_, ?_, ?_, ?_⟩
  · intro env origin destination departure_date return_date
    rcases env with ⟨key, response⟩
    cases key with
    | none => exact ⟨true, rfl⟩
    | some k =>
      by_cases hk : k = ""
      · subst hk; exact ⟨true, rfl⟩
      · cases response with
        | exn msg =>
          refine ⟨false, ?_⟩
          simp only [search_flights]
          rw [if_neg hk]
          rfl
        | resp status body =>
          by_cases hst : status = 200
          · cases hex : extractFlights body with
            | ok flights =>
              refine ⟨true, ?_⟩
              simp only [search_flights]
              rw [if_neg hk, if_pos hst, hex]
              rfl
            | error msg =>
              refine ⟨false, ?_⟩
              simp only [search_flights]
              rw [if_neg hk, if_pos hst, hex]
              rfl
          · refine ⟨true, ?_⟩
            simp only [search_flights]
            rw [if_neg hk, if_neg hst]
            rfl
  · intro env city check_in check_out guests max_results
    rcases env with ⟨key, sec, tok, srch⟩
    cases key with
    | none => cases sec <;> exact ⟨true, rfl⟩
    | some k =>
      cases sec with
      | none => exact ⟨true, rfl⟩
      | some s =>
        by_cases hks : (k == "" || s == "") = true
        · refine ⟨true, ?_⟩
          simp only [search_hotels]
          rw [if_pos hks]
          rfl
        · cases tok with
          | exn msg =>
            refine ⟨false, ?_⟩
            simp only [search_hotels]
            rw [if_neg hks]
            rfl
          | resp tokStatus tokBody =>
            by_cases h200 : tokStatus = 200
            · cases htok : pyDictIndex tokBody "access_token" with
              | error msg =>
                refine ⟨false, ?_⟩
                simp only [search_hotels]
                rw [if_neg hks, if_neg (by simp [h200]), htok]
                rfl
              | ok tokval =>
                cases srch with
                | exn msg =>
                  refine ⟨false, ?_⟩
                  simp only [search_hotels]
                  rw [if_neg hks, if_neg (by simp [h200]), htok]
                  rfl
                | resp status body =>
                  by_cases hst : status = 200
                  · cases hex : extractHotels city max_results body with
                    | ok hotels =>
                      refine ⟨true, ?_⟩
                      simp only [search_hotels]
                      rw [if_neg hks, if_neg (by simp [h200]), htok, if_pos hst, hex]
                      rfl
                    | error msg =>
                      refine ⟨false, ?_⟩
                      simp only [search_hotels]
                      rw [if_neg hks, if_neg (by simp [h200]), htok, if_pos hst, hex]
                      rfl
                  · refine ⟨true, ?_⟩
                    simp only [search_hotels]
                    rw [if_neg hks, if_neg (by simp [h200]), htok, if_neg hst]
                    rfl
            · refine ⟨true, ?_⟩
              simp only [search_hotels]
              rw [if_neg hks, if_pos h200]
              rfl
  · intro env store a
    rcases env with ⟨loads, now, werr⟩
    by_cases hv : pyLower a.booking_type ∉ ["flight", "hotel"]
    · refine ⟨false, ?_⟩
      unfold create_booking
      rw [if_pos hv]
      rfl
    · cases werr with
      | some msg =>
        refine ⟨false, ?_⟩
        unfold create_booking
        rw [if_neg hv]
        rfl
      | none =>
        refine ⟨true, ?_⟩
        unfold create_booking
        rw [if_neg hv]
        rfl
  · intro key msg origin destination departure_date return_date
    by_cases hk : key = ""
    · subst hk; exact Or.inl rfl
    · refine Or.inr ?_
      simp only [search_flights]
      rw [if_neg hk]
      rfl
  · intro loads now msg store a
    by_cases hv : pyLower a.booking_type ∉ ["flight", "hotel"]
    · constructor
      · unfold create_booking
        rw [if_pos hv]
        rfl
      · unfold create_booking
        rw [if_pos hv]
    · constructor
      · unfold create_booking
        rw [if_neg hv]
        rfl
      · unfold create_booking
        rw [if_neg hv]

/-! ## C10: the count field equals the length of the returned array -/

theorem mock_flight_count (origin destination departure_date : String)
    (return_date : Option String) (l : List Json)
    (h : (get_mock_flight_data origin destination departure_date return_date).getField
        "flights" = some (Json.arr l)) :
    (get_mock_flight_data origin destination departure_date return_date).getField "count"
      = some (Json.num l.length) := by
  have h' : some (Json.arr mockFlights) = some (Json.arr l) := h
  obtain rfl : mockFlights = l := by simpa using h'
  rfl

theorem live_flight_count (origin destination departure_date : String)
    (return_date : Option String) (flights l : List Json)
    (h : (liveFlightResult origin destination departure_date return_date flights).getField
        "flights" = some (Json.arr l)) :
    (liveFlightResult origin destination departure_date return_date flights).getField
      "count" = some (Json.num l.length) := by
  have h' : some (Json.arr flights) = some (Json.arr l) := h
  obtain rfl : flights = l := by simpa using h'
  rfl

theorem mock_hotel_count (city check_in check_out : String) (guests max_results : Int)
    (hmr : 0 ≤ max_results) (l : List Json)
    (h : (get_mock_hotel_data city check_in check_out guests max_results).getField "hotels"
        = some (Json.arr l)) :
    (get_mock_hotel_data city check_in check_out guests max_results).getField "count"
      = some (Json.num l.length) := by
  have h' : some (Json.arr (pySlice max_results (mockHotels city))) = some (Json.arr l) := h
  obtain rfl : pySlice max_results (mockHotels city) = l := by simpa using h'
  show some (Json.num (min ((mockHotels city).length : Int) max_results))
      = some (Json.num ((pySlice max_results (mockHotels city)).length : Int))
  have hlen : ((pySlice max_results (mockHotels city)).length : Int)
      = min ((mockHotels city).length : Int) max_results := by
    unfold pySlice
    rw [if_pos hmr, List.length_take]
    rw [show (mockHotels city).length = 5 from rfl]
    omega
  rw [hlen]

theorem live_hotel_count (city check_in check_out : String) (guests : Int)
    (hotels l : List Json)
    (h : (liveHotelResult city check_in check_out guests hotels).getField "hotels"
        = some (Json.arr l)) :
    (liveHotelResult city check_in check_out guests hotels).getField "count"
      = some (Json.num l.length) := by
  have h' : some (Json.arr hotels) = some (Json.arr l) := h
  obtain rfl : hotels = l := by simpa using h'
  rfl

/-- C10: every flight search result that carries a flights array reports
count equal to the length of the array, and every hotel search result with a
nonnegative max_results that carries a hotels array reports count equal to
that same length (live, mock and error paths alike — error results carry
no array, so the property is about every result that has one). -/
theorem search_result_count_consistent :
    (∀ (env : FlightEnv) (origin destination departure_date : String)
        (return_date : Option String) (l : List Json),
      (search_flights env origin destination departure_date return_date).getField "flights"
        = some (Json.arr l) →
      (search_flights env origin destination departure_date return_date).getField "count"
        = some (Json.num l.length)) ∧
    (∀ (env : HotelEnv) (city check_in check_out : String) (guests max_results : Int),
      0 ≤ max_results →
      ∀ l : List Json,
      (search_hotels env city check_in check_out guests max_results).getField "hotels"
        = some (Json.arr l) →
      (search_hotels env city check_in check_out guests max_results).getField "count"
        = some (Json.num l.length)) := by
  constructor
  · intro env origin destination departure_date return_date l
    rcases env with ⟨key, response⟩
    cases key with
    | none => exact mock_flight_count origin destination departure_date return_date l
    | some k =>
      by_cases hk : k = ""
      · subst hk
        exact mock_flight_count origin destination departure_date return_date l
      · cases response with
        | exn msg =>
          simp only [search_flights]
          rw [if_neg hk]
          intro h
          exact Option.noConfusion h
        | resp status body =>
          by_cases hst : status = 200
          · cases hex : extractFlights body with
            | ok flights =>
              simp only [search_flights]
              rw [if_neg hk, if_pos hst, hex]
              exact live_flight_count origin destination departure_date return_date flights l
            | error msg =>
              simp only [search_flights]
              rw [if_neg hk, if_pos hst, hex]
              intro h
              exact Option.noConfusion h
          · simp only [search_flights]
            rw [if_neg hk, if_neg hst]
            exact mock_flight_count origin destination departure_date return_date l
  · intro env city check_in check_out guests max_results hmr l
    rcases env with ⟨key, sec, tok, srch⟩
    cases key with
    | none =>
      cases sec <;>
        exact mock_hotel_count city check_in check_out guests max_results hmr l
    | some k =>
      cases sec with
      | none => exact mock_hotel_count city check_in check_out guests max_results hmr l
      | some s =>
        by_cases hks : (k == "" || s == "") = true
        · simp only [search_hotels]
          rw [if_pos hks]
          exact mock_hotel_count city check_in check_out guests max_results hmr l
        · cases tok with
          | exn msg =>
            simp only [search_hotels]
            rw [if_neg hks]
            intro h
            exact Option.noConfusion h
          | resp tokStatus tokBody =>
            by_cases h200 : tokStatus = 200
            · cases htok : pyDictIndex tokBody "access_token" with
              | error msg =>
                simp only [search_hotels]
                rw [if_neg hks, if_neg (by simp [h200]), htok]
                intro h
                exact Option.noConfusion h
              | ok tokval =>
                cases srch with
                | exn msg =>
                  simp only [search_hotels]
                  rw [if_neg hks, if_neg (by simp [h200]), htok]
                  intro h
                  exact Option.noConfusion h
                | resp status body =>
                  by_cases hst : status = 200
                  · cases hex : extractHotels city max_results body with
                    | ok hotels =>
                      simp only [search_hotels]
                      rw [if_neg hks, if_neg (by simp [h200]), htok, if_pos hst, hex]
                      exact live_hotel_count city check_in check_out guests hotels l
                    | error msg =>
                      simp only [search_hotels]
                      rw [if_neg hks, if_neg (by simp [h200]), htok, if_pos hst, hex]
                      intro h
                      exact Option.noConfusion h
                  · simp only [search_hotels]
                    rw [if_neg hks, if_neg (by simp [h200]), htok, if_neg hst]
                    exact mock_hotel_count city check_in check_out guests max_results hmr l
            · simp only [search_hotels]
              rw [if_neg hks, if_pos h200]
              exact mock_hotel_count city check_in check_out guests max_results hmr l

/-- Witness for C10: mock flight and mock hotel results at concrete inputs. -/
theorem search_result_count_consistent_witness :
    (search_flights ⟨none, ProviderOutcome.resp 0 Json.null⟩ "JFK" "CDG" "2025-06-01"
        none).getField "count" = some (Json.num mockFlights.length) ∧
    (search_hotels ⟨none, none, ProviderOutcome.resp 0 Json.null,
        ProviderOutcome.resp 0 Json.null⟩ "Paris" "2025-06-01" "2025-06-03" 2 3).getField
      "count" = some (Json.num (pySlice 3 (mockHotels "Paris")).length) :=
  ⟨search_result_count_consistent.1 ⟨none, ProviderOutcome.resp 0 Json.null⟩ "JFK" "CDG"
      "2025-06-01" none mockFlights rfl,
   search_result_count_consistent.2 ⟨none, none, ProviderOutcome.resp 0 Json.null,
      ProviderOutcome.resp 0 Json.null⟩ "Paris" "2025-06-01" "2025-06-03" 2 3 (by decide)
      (pySlice 3 (mockHotels "Paris")) rfl⟩

/-- Witness for C9: a one-session store deleted twice. -/
theorem delete_session_semantics_witness :
    (delete_session [("s1", [])] "s1").1 = DeleteOutcome.ok "s1" ∧
    (delete_session (delete_session [("s1", [])] "s1").2 "s1").1
      = DeleteOutcome.httpError 404 "Session not found" :=
  delete_session_semantics.2.2 [("s1", [])] "s1" (by decide)
